import Mathlib

/-!
Verification of the configuration-resolution core of `supabase-mcp-server`
(`supabase_mcp/settings.py`): the config-file locator `find_config_file`,
the `Settings` schema with its field validators, and the
`Settings.with_config` constructor.

The embedding models:
* the process environment and the parsed dotenv file as association lists
  `List (String × String)`, looked up case-insensitively (the default
  behaviour of the settings-loading library used by the file:
  `case_sensitive=False` lowercases both the stored keys and the name
  being looked up);
* per-field source selection: environment variable first, then the config
  file, then the declared default — independently per field.  A field with
  a declared alias is read under that alias; a field without one
  (`supabase_api_url`) is read under its own field name;
* the field validators, run in field-declaration order, with
  `info.data.get("supabase_project_ref", "")` semantics for the password
  validator;
* the loader's default `extra="forbid"`: the dotenv source passes
  unrecognized non-empty keys of the located file through to model
  validation, where each one contributes an `extra_forbidden` error to
  the `ValidationError`;
* logging as an explicit list of emitted log entries;
* the filesystem seen by the locator as a partial map from path strings to
  entry kinds (regular file / directory), since `Path.exists()` is true
  for both kinds.
-/

/-- ASCII lowercasing of a string, written structurally over the
character list (the meaning of `str.lower()` applied to the key names in
play, which are ASCII). -/
def lowerString (s : String) : String := ⟨s.data.map Char.toLower⟩

/-- Python `s.startswith(p)`, written structurally over the character lists. -/
def strStartsWith (s p : String) : Bool := p.data.isPrefixOf s.data

/-- A log entry emitted through the logging collaborator. -/
inductive LogEntry : Type
| info : String → LogEntry
| error : String → LogEntry
deriving DecidableEq, Repr

/-- Case-insensitive lookup in an association list of environment-style
key/value pairs, mirroring the loading mechanism's `case_sensitive=False`
default (keys and query are compared lowercased). -/
def lookupEnv (env : List (String × String)) (key : String) : Option String :=
  (env.find? (fun p => lowerString p.1 == lowerString key)).map (fun p => p.2)

/-- The eight fields of the `Settings` schema, in declaration order. -/
inductive FieldId : Type
| projectRef
| dbPassword
| region
| accessToken
| serviceRoleKey
| apiUrl
| queryApiKey
| queryApiUrl
deriving DecidableEq, Repr

/-- The environment/dotenv key each field is read under: its declared
alias, or — for `supabase_api_url`, which declares no alias — the field
name itself (matching is case-insensitive either way). -/
def envKey : FieldId → String
| .projectRef => "SUPABASE_PROJECT_REF"
| .dbPassword => "SUPABASE_DB_PASSWORD"
| .region => "SUPABASE_REGION"
| .accessToken => "SUPABASE_ACCESS_TOKEN"
| .serviceRoleKey => "SUPABASE_SERVICE_ROLE_KEY"
| .apiUrl => "supabase_api_url"
| .queryApiKey => "QUERY_API_KEY"
| .queryApiUrl => "QUERY_API_URL"

/-- The declared default of each field (`none` for the optional fields). -/
def defaultValue : FieldId → Option String
| .projectRef => some "127.0.0.1:54322"
| .dbPassword => none
| .region => some "us-east-1"
| .accessToken => none
| .serviceRoleKey => none
| .apiUrl => some "https://api.supabase.com"
| .queryApiKey => some "test-key"
| .queryApiUrl => some "https://api.thequery.dev/v1"

/-- The raw values selected for the eight fields, before validation.
Types mirror the schema annotations: `str` fields are `String`,
`str | None` fields are `Option String`. -/
structure RawSettings : Type where
  supabase_project_ref : String
  supabase_db_password : Option String
  supabase_region : String
  supabase_access_token : Option String
  supabase_service_role_key : Option String
  supabase_api_url : String
  query_api_key : String
  query_api_url : String
deriving DecidableEq, Repr

/-- Source selection for a single field: the environment value if the
key is set there, else the config-file value if a file was located and
holds the key, else `none`. -/
def selectRaw (env : List (String × String))
    (cfg : Option (List (String × String))) (key : String) : Option String :=
  match lookupEnv env key with
  | some v => some v
  | none =>
    match cfg with
    | some file => lookupEnv file key
    | none => none

/-- Source selection for a required (`str`) field, falling back to the
declared default. -/
def selectRawStr (env : List (String × String))
    (cfg : Option (List (String × String))) (key dflt : String) : String :=
  match selectRaw env cfg key with
  | some v => v
  | none => dflt

/-- Raw value selection for the whole schema: each field independently
takes its environment value, else its config-file value, else its
declared default. -/
def rawResolve (env : List (String × String))
    (cfg : Option (List (String × String))) : RawSettings :=
  ⟨selectRawStr env cfg "SUPABASE_PROJECT_REF" "127.0.0.1:54322",
   selectRaw env cfg "SUPABASE_DB_PASSWORD",
   selectRawStr env cfg "SUPABASE_REGION" "us-east-1",
   selectRaw env cfg "SUPABASE_ACCESS_TOKEN",
   selectRaw env cfg "SUPABASE_SERVICE_ROLE_KEY",
   selectRawStr env cfg "supabase_api_url" "https://api.supabase.com",
   selectRawStr env cfg "QUERY_API_KEY" "test-key",
   selectRawStr env cfg "QUERY_API_URL" "https://api.thequery.dev/v1"⟩

/-- View a raw record field uniformly as an `Option String` (required
fields wrapped in `some`). -/
def rawGet (r : RawSettings) : FieldId → Option String
| .projectRef => some r.supabase_project_ref
| .dbPassword => r.supabase_db_password
| .region => some r.supabase_region
| .accessToken => r.supabase_access_token
| .serviceRoleKey => r.supabase_service_role_key
| .apiUrl => some r.supabase_api_url
| .queryApiKey => some r.query_api_key
| .queryApiUrl => some r.query_api_url

/-- Python truthiness of a `str | None` value: `None` and `""` are falsy. -/
def pyTruthy : Option String → Bool
| none => false
| some s => s != ""

/-- Message of the `ValueError` raised for an empty project ref. -/
def projectRefErrMsg : String := "SUPABASE_PROJECT_REF cannot be empty."

/-- Message of the `ValueError` raised for a missing remote password. -/
def dbPasswordErrMsg : String :=
  "Database password is required for remote Supabase projects."

/-- Message logged (at error severity) before the missing-password raise. -/
def dbPasswordLogMsg : String :=
  "SUPABASE_DB_PASSWORD is required when connecting to a remote instance"

/-- Validator `validate_region`: allow any region, including "local". -/
def validate_region (v : String) : Except String String := .ok v

/-- Validator `validate_project_ref`: allow any non-empty string. -/
def validate_project_ref (v : String) : Except String String :=
  if v = "" then .error projectRefErrMsg else .ok v

/-- Validator `validate_db_password`: `project_ref` is
`info.data.get("supabase_project_ref", "")`.  Local (loopback) refs get
`v or "postgres"`; remote refs require a truthy password, logging an
error before raising when it is absent. -/
def validate_db_password (v : Option String) (project_ref : String) :
    Except String String × List LogEntry :=
  if strStartsWith project_ref "127.0.0.1" then
    (.ok (if pyTruthy v then v.getD "" else "postgres"), [])
  else
    if pyTruthy v then (.ok (v.getD ""), [])
    else (.error dbPasswordErrMsg, [LogEntry.error dbPasswordLogMsg])

/-- The resolved, validated `Settings` record.  After validation the
password is always a concrete string (the validator returns `str`). -/
structure Settings : Type where
  supabase_project_ref : String
  supabase_db_password : String
  supabase_region : String
  supabase_access_token : Option String
  supabase_service_role_key : Option String
  supabase_api_url : String
  query_api_key : String
  query_api_url : String
deriving DecidableEq, Repr

/-- The error list of a single validator outcome. -/
def errList : Except String String → List String
| .error e => [e]
| .ok _ => []

/-- The value of `info.data.get("supabase_project_ref", "")` seen by the
password validator: the validated project ref when that validation
succeeded, and `""` when it failed (the key is then absent from
`info.data`). -/
def prDataOf : Except String String → String
| .ok s => s
| .error _ => ""

/-- The environment/dotenv names the schema recognizes: the declared
aliases plus, for the alias-less field, the field name itself. -/
def recognizedKeys : List String :=
  ["SUPABASE_PROJECT_REF", "SUPABASE_DB_PASSWORD", "SUPABASE_REGION",
   "SUPABASE_ACCESS_TOKEN", "SUPABASE_SERVICE_ROLE_KEY", "supabase_api_url",
   "QUERY_API_KEY", "QUERY_API_URL"]

/-- Whether a dotenv key matches some field of the schema
(case-insensitively, as the loading mechanism compares them). -/
def isRecognizedKey (k : String) : Bool :=
  recognizedKeys.any (fun r => lowerString r == lowerString k)

/-- The unrecognized dotenv entries the loading mechanism passes
through to model validation: keys of the located file with a non-empty
value that match no field of the schema (empty-valued entries are
skipped by the dotenv source).  Under the settings model's default
`extra="forbid"` each such key contributes an `extra_forbidden`
validation error.  The plain environment contributes no extras: the
environment source only extracts recognized names. -/
def extraKeys (cfg : Option (List (String × String))) : List String :=
  match cfg with
  | none => []
  | some file =>
    (file.filter (fun p => p.2 != "" && !(isRecognizedKey p.1))).map (fun p => p.1)

/-- The `extra_forbidden` error carried for one unrecognized dotenv
key. -/
def extraForbiddenMsg (k : String) : String :=
  "Extra inputs are not permitted: " ++ k

/-- Full resolution: raw source selection, then the validators in field
declaration order (`supabase_project_ref`, then `supabase_db_password`,
then `supabase_region`).  The password validator sees the validated
project ref when that validation succeeded, and `""` otherwise
(`info.data.get` default).  Failure collects the field errors — and,
under the default `extra="forbid"`, one `extra_forbidden` error per
unrecognized non-empty dotenv key — into a `ValidationError`; log
entries emitted during validation are returned alongside. -/
def resolveSettings (env : List (String × String))
    (cfg : Option (List (String × String))) :
    Except (List String) Settings × List LogEntry :=
  let raw := rawResolve env cfg
  let prRes := validate_project_ref raw.supabase_project_ref
  let pw := validate_db_password raw.supabase_db_password (prDataOf prRes)
  let regRes := validate_region raw.supabase_region
  match prRes, pw.1, regRes with
  | .ok pr, .ok pwv, .ok reg =>
    match (extraKeys cfg).map extraForbiddenMsg with
    | [] =>
      (.ok ⟨pr, pwv, reg, raw.supabase_access_token,
            raw.supabase_service_role_key, raw.supabase_api_url,
            raw.query_api_key, raw.query_api_url⟩, pw.2)
    | es => (.error es, pw.2)
  | _, _, _ =>
    (.error (errList prRes ++ errList pw.1 ++ errList regRes ++
      (extraKeys cfg).map extraForbiddenMsg), pw.2)

/-- A located config file: its path and its parsed key/value contents. -/
structure ConfigFile : Type where
  path : String
  contents : List (String × String)

/-- The `env_vars_present` check of `with_config`: exact membership of
the two names `SUPABASE_PROJECT_REF` / `SUPABASE_DB_PASSWORD` in the
process environment. -/
def envVarsPresent (env : List (String × String)) : Bool :=
  env.any (fun p =>
    p.1 == "SUPABASE_PROJECT_REF" || p.1 == "SUPABASE_DB_PASSWORD")

/-- The informational source-selection line logged by `with_config`,
chosen by `env_vars_present` and the presence of a config-file path. -/
def infoMessage (present : Bool) (cfg : Option ConfigFile) : String :=
  match present, cfg with
  | true, some c => "Using environment variables over config file: " ++ c.path
  | true, none => "Using environment variables for configuration"
  | false, some c => "Using settings from config file: " ++ c.path
  | false, none => "Using default settings (local development)"

/-- Constructor `Settings.with_config`: construct the settings from the environment
and an optional located config file, then (on success only — a
`ValidationError` propagates before any info logging) emit exactly one
informational line chosen by `env_vars_present` and the presence of a
config-file path. -/
def with_config (env : List (String × String)) (cfg : Option ConfigFile) :
    Except (List String) Settings × List LogEntry :=
  let r := resolveSettings env (cfg.map (fun c => c.contents))
  match r.1 with
  | .error es => (.error es, r.2)
  | .ok s =>
    (.ok s, r.2 ++ [LogEntry.info (infoMessage (envVarsPresent env) cfg)])

/-- A filesystem entry kind: `Path.exists()` is true for both regular
files and directories, so the locator's model distinguishes them. -/
inductive FSEntry : Type
| file
| dir
deriving DecidableEq, Repr

/-- The platform facts the locator consults: `os.name`, the `APPDATA`
environment variable, the user home directory and the current working
directory. -/
structure Platform : Type where
  os_name : String
  appdata : Option String
  home : String
  cwd : String

/-- Path joining as performed by `pathlib` (`Path("") / "x"` is `Path("x")`). -/
def joinPath (a b : String) : String :=
  if a = "" then b else a ++ "/" ++ b

/-- The deprecation message logged for the legacy global config path. -/
def deprecationMsg (p : String) : String :=
  "DEPRECATED: " ++ p ++ " is deprecated and will be removed in a future release. " ++
    "Use your IDE's native .json config file to configure access to MCP."

/-- The platform-specific global config path. -/
def globalConfigPath (p : Platform) : String :=
  if p.os_name = "nt" then
    joinPath (joinPath (p.appdata.getD "") "supabase-mcp") ".env"
  else
    joinPath (joinPath (joinPath p.home ".config") "supabase-mcp") ".env"

/-- Locator `find_config_file`: return `<cwd>/<env_file>` if that path exists
(`Path.exists()` — any entry kind); otherwise return the global config
path if it exists, logging a deprecation error first; otherwise `none`.
Returns the found path together with the emitted log entries. -/
def find_config_file (plat : Platform) (fs : String → Option FSEntry)
    (env_file : String) : Option String × List LogEntry :=
  let cwd_config := joinPath plat.cwd env_file
  if (fs cwd_config).isSome then (some cwd_config, [])
  else
    let global_config := globalConfigPath plat
    if (fs global_config).isSome then
      (some global_config, [LogEntry.error (deprecationMsg global_config)])
    else (none, [])
/-- File-side lookup: the config-file value of a key when a file was
located and holds the key. -/
def lookupFile (cfg : Option (List (String × String))) (key : String) :
    Option String :=
  match cfg with
  | some file => lookupEnv file key
  | none => none

theorem selectRaw_env_wins (env : List (String × String))
    (cfg : Option (List (String × String))) (key v : String)
    (h : lookupEnv env key = some v) : selectRaw env cfg key = some v := by
  unfold selectRaw
  rw [h]

theorem selectRaw_file_next (env : List (String × String))
    (cfg : Option (List (String × String))) (key v : String)
    (h : lookupEnv env key = none) (hf : lookupFile cfg key = some v) :
    selectRaw env cfg key = some v := by
  unfold selectRaw
  rw [h]
  unfold lookupFile at hf
  exact hf

theorem selectRaw_neither (env : List (String × String))
    (cfg : Option (List (String × String))) (key : String)
    (h : lookupEnv env key = none) (hf : lookupFile cfg key = none) :
    selectRaw env cfg key = none := by
  unfold selectRaw
  rw [h]
  unfold lookupFile at hf
  exact hf

theorem rawGet_rawResolve (env : List (String × String))
    (cfg : Option (List (String × String))) (f : FieldId) :
    rawGet (rawResolve env cfg) f =
      Option.orElse (selectRaw env cfg (envKey f)) (fun _ => defaultValue f) := by
  cases f <;>
    simp only [rawGet, rawResolve, envKey, defaultValue, selectRawStr] <;>
    rcases selectRaw env cfg _ with _ | v <;> rfl

/-- C1: raw source selection follows per-field precedence. -/
theorem c1_per_field_precedence (env : List (String × String))
    (cfg : Option (List (String × String))) (f : FieldId) :
    (∀ v, lookupEnv env (envKey f) = some v →
      rawGet (rawResolve env cfg) f = some v) ∧
    (∀ v, lookupEnv env (envKey f) = none → lookupFile cfg (envKey f) = some v →
      rawGet (rawResolve env cfg) f = some v) ∧
    (lookupEnv env (envKey f) = none → lookupFile cfg (envKey f) = none →
      rawGet (rawResolve env cfg) f = defaultValue f) := by
  refine ⟨?_, ?_, ?_⟩
  · intro v h
    rw [rawGet_rawResolve, selectRaw_env_wins env cfg _ v h]
    rfl
  · intro v h hf
    rw [rawGet_rawResolve, selectRaw_file_next env cfg _ v h hf]
    rfl
  · intro h hf
    rw [rawGet_rawResolve, selectRaw_neither env cfg _ h hf]
    cases defaultValue f <;> rfl

theorem c1_witness :
    rawGet (rawResolve [("SUPABASE_REGION", "ap-south-1")]
        (some [("SUPABASE_REGION", "eu-west-1")])) FieldId.region =
      some "ap-south-1" ∧
    rawGet (rawResolve []
        (some [("SUPABASE_REGION", "eu-west-1")])) FieldId.region =
      some "eu-west-1" ∧
    rawGet (rawResolve [] none) FieldId.region = some "us-east-1" :=
  ⟨(c1_per_field_precedence _ _ FieldId.region).1 "ap-south-1" (by decide),
   (c1_per_field_precedence _ _ FieldId.region).2.1 "eu-west-1" (by decide) (by decide),
   (c1_per_field_precedence _ _ FieldId.region).2.2 (by decide) (by decide)⟩
theorem extraForbiddenMsg_ne_dbPasswordErrMsg (k : String) :
    extraForbiddenMsg k ≠ dbPasswordErrMsg := by
  intro h
  have h2 : (extraForbiddenMsg k).data.head? = dbPasswordErrMsg.data.head? := by
    rw [h]
  rw [show (extraForbiddenMsg k).data.head? = some (Char.ofNat 69) from rfl] at h2
  exact absurd h2 (by decide)

theorem dbPasswordErrMsg_not_in_extras (ks : List String) :
    dbPasswordErrMsg ∉ ks.map extraForbiddenMsg := by
  intro h
  rcases List.mem_map.mp h with ⟨k, _, hk⟩
  exact extraForbiddenMsg_ne_dbPasswordErrMsg k hk

theorem with_config_remote_falsy (env : List (String × String))
    (cfg : Option ConfigFile) (r : String)
    (hpr : validate_project_ref
      (rawResolve env (cfg.map (fun c => c.contents))).supabase_project_ref = .ok r)
    (hloop : strStartsWith r "127.0.0.1" = false)
    (hpw : pyTruthy
      (rawResolve env (cfg.map (fun c => c.contents))).supabase_db_password = false) :
    with_config env cfg =
      (.error (dbPasswordErrMsg ::
        (extraKeys (cfg.map (fun c => c.contents))).map extraForbiddenMsg),
       [LogEntry.error dbPasswordLogMsg]) := by
  simp only [with_config, resolveSettings, hpr, validate_db_password, hloop,
    validate_region, errList]
  rw [hpw]
  simp [errList, prDataOf, hloop]

/-- C2: a remote (non-loopback) resolved project reference with no
password from any source fails with a `ValidationError` that carries
the password failure exactly once (alongside only the `extra_forbidden`
errors of any unrecognized config-file keys), and the failure is logged
exactly once through the logging collaborator before raising. -/
theorem c2_remote_missing_password (env : List (String × String))
    (cfg : Option ConfigFile) (r : String)
    (hpr : validate_project_ref
      (rawResolve env (cfg.map (fun c => c.contents))).supabase_project_ref = .ok r)
    (hloop : strStartsWith r "127.0.0.1" = false)
    (hpw : (rawResolve env (cfg.map (fun c => c.contents))).supabase_db_password = none) :
    with_config env cfg =
      (.error (dbPasswordErrMsg ::
        (extraKeys (cfg.map (fun c => c.contents))).map extraForbiddenMsg),
       [LogEntry.error dbPasswordLogMsg]) ∧
    dbPasswordErrMsg ∉
      (extraKeys (cfg.map (fun c => c.contents))).map extraForbiddenMsg :=
  ⟨with_config_remote_falsy env cfg r hpr hloop (by rw [hpw]; rfl),
   dbPasswordErrMsg_not_in_extras _⟩

theorem c2_witness :
    (with_config [("SUPABASE_PROJECT_REF", "myproject.supabase.co")] none =
      (.error [dbPasswordErrMsg], [LogEntry.error dbPasswordLogMsg]) ∧
     dbPasswordErrMsg ∉ ([] : List String)) :=
  c2_remote_missing_password [("SUPABASE_PROJECT_REF", "myproject.supabase.co")]
    none "myproject.supabase.co" (by rfl) (by decide) (by decide)

/-- C10: a remote (non-loopback) resolved project reference with the
password explicitly supplied as the empty string fails exactly like an
absent password: a `ValidationError` carrying the password failure
exactly once (alongside only the `extra_forbidden` errors of any
unrecognized config-file keys), logged once and raised once. -/
theorem c10_remote_empty_password (env : List (String × String))
    (cfg : Option ConfigFile) (r : String)
    (hpr : validate_project_ref
      (rawResolve env (cfg.map (fun c => c.contents))).supabase_project_ref = .ok r)
    (hloop : strStartsWith r "127.0.0.1" = false)
    (hpw : (rawResolve env (cfg.map (fun c => c.contents))).supabase_db_password =
      some "") :
    with_config env cfg =
      (.error (dbPasswordErrMsg ::
        (extraKeys (cfg.map (fun c => c.contents))).map extraForbiddenMsg),
       [LogEntry.error dbPasswordLogMsg]) ∧
    dbPasswordErrMsg ∉
      (extraKeys (cfg.map (fun c => c.contents))).map extraForbiddenMsg :=
  ⟨with_config_remote_falsy env cfg r hpr hloop (by rw [hpw]; rfl),
   dbPasswordErrMsg_not_in_extras _⟩

theorem c10_witness :
    (with_config [("SUPABASE_PROJECT_REF", "myproject.supabase.co"),
                  ("SUPABASE_DB_PASSWORD", "")] none =
      (.error [dbPasswordErrMsg], [LogEntry.error dbPasswordLogMsg]) ∧
     dbPasswordErrMsg ∉ ([] : List String)) :=
  c10_remote_empty_password
    [("SUPABASE_PROJECT_REF", "myproject.supabase.co"),
     ("SUPABASE_DB_PASSWORD", "")]
    none "myproject.supabase.co" (by rfl) (by decide) (by decide)
theorem resolveSettings_of_ok (env : List (String × String))
    (cfgc : Option (List (String × String))) (r w : String) (logs : List LogEntry)
    (hpr : validate_project_ref (rawResolve env cfgc).supabase_project_ref =
      Except.ok r)
    (hpw : validate_db_password (rawResolve env cfgc).supabase_db_password r =
      (Except.ok w, logs))
    (hex : extraKeys cfgc = []) :
    resolveSettings env cfgc =
      (Except.ok ⟨r, w, (rawResolve env cfgc).supabase_region,
        (rawResolve env cfgc).supabase_access_token,
        (rawResolve env cfgc).supabase_service_role_key,
        (rawResolve env cfgc).supabase_api_url,
        (rawResolve env cfgc).query_api_key,
        (rawResolve env cfgc).query_api_url⟩, logs) := by
  simp only [resolveSettings, hpr, prDataOf, hpw, validate_region, hex,
    List.map_nil]

theorem with_config_of_ok (env : List (String × String)) (cfg : Option ConfigFile)
    (s : Settings) (logs : List LogEntry)
    (h : resolveSettings env (cfg.map (fun c => c.contents)) = (Except.ok s, logs)) :
    with_config env cfg =
      (Except.ok s, logs ++ [LogEntry.info (infoMessage (envVarsPresent env) cfg)]) := by
  simp only [with_config, h]

/-- C3: with no recognized environment variables set and no config file
located, resolution succeeds with the declared defaults: project ref
`127.0.0.1:54322`, region `us-east-1`, and (via the local-password rule)
password `postgres`. -/
theorem c3_defaults (env : List (String × String))
    (h1 : lookupEnv env "SUPABASE_PROJECT_REF" = none)
    (h2 : lookupEnv env "SUPABASE_DB_PASSWORD" = none)
    (h3 : lookupEnv env "SUPABASE_REGION" = none)
    (_h4 : lookupEnv env "SUPABASE_ACCESS_TOKEN" = none)
    (_h5 : lookupEnv env "SUPABASE_SERVICE_ROLE_KEY" = none)
    (_h6 : lookupEnv env "QUERY_API_KEY" = none)
    (_h7 : lookupEnv env "QUERY_API_URL" = none) :
    ∃ s, (with_config env none).1 = .ok s ∧
      s.supabase_project_ref = "127.0.0.1:54322" ∧
      s.supabase_region = "us-east-1" ∧
      s.supabase_db_password = "postgres" := by
  have hpr : (rawResolve env none).supabase_project_ref = "127.0.0.1:54322" := by
    show selectRawStr env none "SUPABASE_PROJECT_REF" "127.0.0.1:54322" = _
    unfold selectRawStr selectRaw
    rw [h1]
  have hpw : (rawResolve env none).supabase_db_password = none := by
    show selectRaw env none "SUPABASE_DB_PASSWORD" = none
    unfold selectRaw
    rw [h2]
  have hrg : (rawResolve env none).supabase_region = "us-east-1" := by
    show selectRawStr env none "SUPABASE_REGION" "us-east-1" = _
    unfold selectRawStr selectRaw
    rw [h3]
  have hres := resolveSettings_of_ok env none "127.0.0.1:54322" "postgres" []
    (by rw [hpr]; rfl) (by rw [hpw]; rfl) rfl
  have hw := with_config_of_ok env none _ _ hres
  exact ⟨_, by rw [hw], rfl, hrg, rfl⟩

theorem c3_witness :
    ∃ s, (with_config [] none).1 = .ok s ∧
      s.supabase_project_ref = "127.0.0.1:54322" ∧
      s.supabase_region = "us-east-1" ∧
      s.supabase_db_password = "postgres" :=
  c3_defaults [] rfl rfl rfl rfl rfl rfl rfl

/-- C9: resolution is deterministic: two resolutions of the same
environment snapshot and config-file contents yield Settings records
that agree field by field. -/
theorem c9_deterministic (env : List (String × String))
    (cfg : Option ConfigFile) (s1 s2 : Settings)
    (h1 : (with_config env cfg).1 = .ok s1)
    (h2 : (with_config env cfg).1 = .ok s2) :
    s1.supabase_project_ref = s2.supabase_project_ref ∧
    s1.supabase_db_password = s2.supabase_db_password ∧
    s1.supabase_region = s2.supabase_region ∧
    s1.supabase_access_token = s2.supabase_access_token ∧
    s1.supabase_service_role_key = s2.supabase_service_role_key ∧
    s1.supabase_api_url = s2.supabase_api_url ∧
    s1.query_api_key = s2.query_api_key ∧
    s1.query_api_url = s2.query_api_url := by
  have h := h1.symm.trans h2
  injection h with h
  subst h
  exact ⟨rfl, rfl, rfl, rfl, rfl, rfl, rfl, rfl⟩

theorem c9_witness :
    (with_config [] none).1 =
      .ok ⟨"127.0.0.1:54322", "postgres", "us-east-1", none, none,
           "https://api.supabase.com", "test-key", "https://api.thequery.dev/v1"⟩ ∧
    ("127.0.0.1:54322" = "127.0.0.1:54322" ∧ "postgres" = "postgres" ∧
     "us-east-1" = "us-east-1" ∧ (none : Option String) = none ∧
     (none : Option String) = none ∧
     "https://api.supabase.com" = "https://api.supabase.com" ∧
     "test-key" = "test-key" ∧
     "https://api.thequery.dev/v1" = "https://api.thequery.dev/v1") :=
  ⟨by rfl,
   c9_deterministic [] none
     ⟨"127.0.0.1:54322", "postgres", "us-east-1", none, none,
      "https://api.supabase.com", "test-key", "https://api.thequery.dev/v1"⟩
     ⟨"127.0.0.1:54322", "postgres", "us-east-1", none, none,
      "https://api.supabase.com", "test-key", "https://api.thequery.dev/v1"⟩
     (by rfl) (by rfl)⟩
/-- C4 is refuted as stated: with a loopback project ref and the
password explicitly supplied as the empty string
(`SUPABASE_DB_PASSWORD=""`), the resolved password is `"postgres"`, not
the supplied value unchanged (Python `v or "postgres"` treats `""` as
falsy). -/
theorem c4_counterexample :
    (with_config [("SUPABASE_PROJECT_REF", "127.0.0.1:54322"),
                  ("SUPABASE_DB_PASSWORD", "")] none).1 =
      .ok ⟨"127.0.0.1:54322", "postgres", "us-east-1", none, none,
           "https://api.supabase.com", "test-key", "https://api.thequery.dev/v1"⟩ ∧
    "postgres" ≠ "" :=
  ⟨by rfl, by decide⟩

/-- Success inversion for `with_config`: on a successful construction
the resolved project ref is the validated raw project ref, the resolved
password is what the password validator returns against that resolved
ref, region and API URL come straight from raw selection, and the
located config file held no unrecognized non-empty keys. -/
theorem with_config_ok_inversion (env : List (String × String))
    (cfg : Option ConfigFile) (s : Settings)
    (h : (with_config env cfg).1 = .ok s) :
    validate_project_ref
      (rawResolve env (cfg.map (fun c => c.contents))).supabase_project_ref =
      Except.ok s.supabase_project_ref ∧
    (validate_db_password
      (rawResolve env (cfg.map (fun c => c.contents))).supabase_db_password
      s.supabase_project_ref).1 = Except.ok s.supabase_db_password ∧
    s.supabase_region =
      (rawResolve env (cfg.map (fun c => c.contents))).supabase_region ∧
    s.supabase_api_url =
      (rawResolve env (cfg.map (fun c => c.contents))).supabase_api_url ∧
    extraKeys (cfg.map (fun c => c.contents)) = [] := by
  rcases hr : resolveSettings env (cfg.map (fun c => c.contents)) with ⟨r1, r2⟩
  unfold with_config at h
  rw [hr] at h
  cases r1 with
  | error es => exact Except.noConfusion h
  | ok s2 =>
    injection h with h2
    subst h2
    simp only [resolveSettings] at hr
    split at hr
    · rename_i pr pwv reg hpr hpw hreg
      split at hr
      · rename_i hex
        injection hr with hr1 hr2
        injection hr1 with hr1
        subst hr1
        injection hreg with hreg
        refine ⟨hpr, ?_, hreg.symm, rfl, ?_⟩
        · rw [hpr] at hpw
          exact hpw
        · exact List.map_eq_nil_iff.mp hex
      · injection hr with hr1 hr2
        exact Except.noConfusion hr1
    · injection hr with hr1 hr2
      exact Except.noConfusion hr1

/-- C4 amended: for every successful resolution whose resolved project
reference starts with `127.0.0.1`: an absent password and an explicitly
supplied empty password both resolve to `"postgres"`; an explicitly
supplied non-empty password is passed through unchanged. -/
theorem c4_local_password (env : List (String × String)) (cfg : Option ConfigFile)
    (s : Settings) (h : (with_config env cfg).1 = .ok s)
    (hloop : strStartsWith s.supabase_project_ref "127.0.0.1" = true) :
    ((rawResolve env (cfg.map (fun c => c.contents))).supabase_db_password = none →
      s.supabase_db_password = "postgres") ∧
    ((rawResolve env (cfg.map (fun c => c.contents))).supabase_db_password = some "" →
      s.supabase_db_password = "postgres") ∧
    (∀ p, (rawResolve env (cfg.map (fun c => c.contents))).supabase_db_password = some p →
      p ≠ "" → s.supabase_db_password = p) := by
  obtain ⟨hpr, hpw, hrg, hapi, hex⟩ := with_config_ok_inversion env cfg s h
  unfold validate_db_password at hpw
  rw [hloop] at hpw
  injection hpw with hpw
  refine ⟨?_, ?_, ?_⟩
  · intro hv
    rw [hv] at hpw
    exact hpw.symm
  · intro hv
    rw [hv] at hpw
    exact hpw.symm
  · intro p hv hne
    rw [hv] at hpw
    have hp : pyTruthy (some p) = true := by
      simp [pyTruthy, bne_iff_ne, hne]
    rw [hp] at hpw
    exact hpw.symm

theorem c4_witness :
    (with_config [("SUPABASE_PROJECT_REF", "127.0.0.1:54322"),
                  ("SUPABASE_DB_PASSWORD", "s3cr3t")] none).1 =
      .ok ⟨"127.0.0.1:54322", "s3cr3t", "us-east-1", none, none,
           "https://api.supabase.com", "test-key", "https://api.thequery.dev/v1"⟩ ∧
    strStartsWith "127.0.0.1:54322" "127.0.0.1" = true ∧
    (((rawResolve [("SUPABASE_PROJECT_REF", "127.0.0.1:54322"),
         ("SUPABASE_DB_PASSWORD", "s3cr3t")] none).supabase_db_password = none →
       ("s3cr3t" : String) = "postgres") ∧
     ((rawResolve [("SUPABASE_PROJECT_REF", "127.0.0.1:54322"),
         ("SUPABASE_DB_PASSWORD", "s3cr3t")] none).supabase_db_password = some "" →
       ("s3cr3t" : String) = "postgres") ∧
     (∀ p, (rawResolve [("SUPABASE_PROJECT_REF", "127.0.0.1:54322"),
         ("SUPABASE_DB_PASSWORD", "s3cr3t")] none).supabase_db_password = some p →
       p ≠ "" → ("s3cr3t" : String) = p)) :=
  ⟨by rfl, by decide,
   c4_local_password [("SUPABASE_PROJECT_REF", "127.0.0.1:54322"),
     ("SUPABASE_DB_PASSWORD", "s3cr3t")] none
     ⟨"127.0.0.1:54322", "s3cr3t", "us-east-1", none, none,
      "https://api.supabase.com", "test-key", "https://api.thequery.dev/v1"⟩
     (by rfl) (by decide)⟩

/-- C5: an empty resolved project reference fails with a
`ValidationError` that contains the empty-project-ref message, whatever
the other fields are. -/
theorem c5_empty_project_ref (env : List (String × String)) (cfg : Option ConfigFile)
    (h : (rawResolve env (cfg.map (fun c => c.contents))).supabase_project_ref = "") :
    ∃ es logs, with_config env cfg = (.error es, logs) ∧ projectRefErrMsg ∈ es := by
  have hpr : validate_project_ref
      (rawResolve env (cfg.map (fun c => c.contents))).supabase_project_ref =
      .error projectRefErrMsg := by
    rw [h]
    rfl
  simp only [with_config, resolveSettings, hpr, prDataOf, validate_region]
  refine ⟨_, _, rfl, ?_⟩
  simp [errList]

theorem c5_witness :
    ∃ es logs, with_config [("SUPABASE_PROJECT_REF", "")] none = (.error es, logs) ∧
      projectRefErrMsg ∈ es :=
  c5_empty_project_ref [("SUPABASE_PROJECT_REF", "")] none rfl
/-- Platform for the C6 counterexample: a POSIX system with home
`/home/u` and working directory `/work`. -/
def platC6 : Platform := ⟨"posix", none, "/home/u", "/work"⟩

/-- Filesystem for the C6 counterexample: `<cwd>/.env` exists but as a
directory (not a regular file); the global config path exists as a
regular file. -/
def fsC6 : String → Option FSEntry := fun p =>
  if p = "/work/.env" then some FSEntry.dir
  else if p = "/home/u/.config/supabase-mcp/.env" then some FSEntry.file
  else none

/-- C6 is refuted on its regular-file qualifier: when `<cwd>/.env`
exists but is a directory and the global path exists as a regular file,
the claim's clauses demand the global path plus a deprecation warning,
but the locator (which calls `Path.exists()`, true for directories too)
returns the working-directory path with no warning. -/
theorem c6_counterexample :
    fsC6 (joinPath platC6.cwd ".env") = some FSEntry.dir ∧
    fsC6 (globalConfigPath platC6) = some FSEntry.file ∧
    find_config_file platC6 fsC6 ".env" = (some "/work/.env", []) ∧
    find_config_file platC6 fsC6 ".env" ≠
      (some (globalConfigPath platC6),
       [LogEntry.error (deprecationMsg (globalConfigPath platC6))]) := by
  decide

/-- C6 amended: the locator checks bare existence (`Path.exists()`, any
entry kind), not regular-file-ness.  If `<cwd>/<filename>` exists it is
returned with no warning (for every filesystem, so the global path is
never consulted); otherwise an existing global path is returned after
logging the deprecation warning; otherwise the result is `none` with no
logging — absence is never an error. -/
theorem c6_locator_order (plat : Platform) (fs : String → Option FSEntry)
    (env_file : String) :
    ((fs (joinPath plat.cwd env_file)).isSome = true →
      find_config_file plat fs env_file = (some (joinPath plat.cwd env_file), [])) ∧
    (fs (joinPath plat.cwd env_file) = none →
      (fs (globalConfigPath plat)).isSome = true →
      find_config_file plat fs env_file =
        (some (globalConfigPath plat),
         [LogEntry.error (deprecationMsg (globalConfigPath plat))])) ∧
    (fs (joinPath plat.cwd env_file) = none →
      fs (globalConfigPath plat) = none →
      find_config_file plat fs env_file = (none, [])) := by
  refine ⟨?_, ?_, ?_⟩
  · intro h
    simp only [find_config_file]
    rw [h]
    rfl
  · intro h1 h2
    simp only [find_config_file]
    rw [h1, h2]
    rfl
  · intro h1 h2
    simp only [find_config_file]
    rw [h1, h2]
    rfl

theorem c6_witness :
    find_config_file platC6 fsC6 ".env" = (some "/work/.env", []) ∧
    find_config_file platC6
      (fun p => if p = "/home/u/.config/supabase-mcp/.env" then some FSEntry.file
                else none) ".env" =
      (some (globalConfigPath platC6),
       [LogEntry.error (deprecationMsg (globalConfigPath platC6))]) ∧
    find_config_file platC6 (fun _ => none) ".env" = (none, []) :=
  ⟨(c6_locator_order platC6 fsC6 ".env").1 (by decide),
   (c6_locator_order platC6
     (fun p => if p = "/home/u/.config/supabase-mcp/.env" then some FSEntry.file
               else none) ".env").2.1 (by decide) (by decide),
   (c6_locator_order platC6 (fun _ => none) ".env").2.2 (by decide) (by decide)⟩
theorem validate_db_password_shape (v : Option String) (pr : String) :
    (∃ w, validate_db_password v pr = (Except.ok w, [])) ∨
    validate_db_password v pr =
      (Except.error dbPasswordErrMsg, [LogEntry.error dbPasswordLogMsg]) := by
  unfold validate_db_password
  split
  · exact Or.inl ⟨_, rfl⟩
  · split
    · exact Or.inl ⟨_, rfl⟩
    · exact Or.inr rfl

theorem resolveSettings_ok_logs (env : List (String × String))
    (cfgc : Option (List (String × String))) (s : Settings) (logs : List LogEntry)
    (h : resolveSettings env cfgc = (Except.ok s, logs)) : logs = [] := by
  rcases validate_db_password_shape (rawResolve env cfgc).supabase_db_password
      (prDataOf (validate_project_ref (rawResolve env cfgc).supabase_project_ref)) with
    ⟨w, hv⟩ | hv
  · simp only [resolveSettings] at h
    rw [hv] at h
    split at h
    · split at h <;> (injection h with h1 h2; exact h2.symm)
    · injection h with h1 h2
      exact h2.symm
  · simp only [resolveSettings] at h
    rw [hv] at h
    split at h
    · rename_i hpr2 hpw2 hreg2
      exact Except.noConfusion hpw2
    · injection h with h1 h2
      exact Except.noConfusion h1

/-- Modelled from the spec: the selector the claim prescribes for the
info line — presence of any recognized environment variable name (the
seven listed aliases) in the process environment. -/
def claimedEnvVarsPresent (env : List (String × String)) : Bool :=
  env.any (fun p =>
    p.1 == "SUPABASE_PROJECT_REF" || p.1 == "SUPABASE_DB_PASSWORD" ||
    p.1 == "SUPABASE_REGION" || p.1 == "SUPABASE_ACCESS_TOKEN" ||
    p.1 == "SUPABASE_SERVICE_ROLE_KEY" || p.1 == "QUERY_API_KEY" ||
    p.1 == "QUERY_API_URL")

/-- Whether a resolution succeeds (used to state counterexamples without
binders). -/
def resolutionSucceeds (env : List (String × String)) (cfg : Option ConfigFile) :
    Bool :=
  match (with_config env cfg).1 with
  | .ok _ => true
  | .error _ => false

/-- C7 is refuted as stated: with only `SUPABASE_REGION` set (a
recognized environment variable) and a config file present, the claim's
selector picks the "environment overrides file" line, but the code —
whose `env_vars_present` check looks only for `SUPABASE_PROJECT_REF` and
`SUPABASE_DB_PASSWORD` — emits the "using config file" line. -/
theorem c7_counterexample :
    resolutionSucceeds [("SUPABASE_REGION", "local")] (some ⟨"cfg.env", []⟩) = true ∧
    claimedEnvVarsPresent [("SUPABASE_REGION", "local")] = true ∧
    (with_config [("SUPABASE_REGION", "local")] (some ⟨"cfg.env", []⟩)).2 =
      [LogEntry.info "Using settings from config file: cfg.env"] ∧
    "Using settings from config file: cfg.env" ≠
      "Using environment variables over config file: cfg.env" := by
  decide

/-- C7 amended: on every successful construction exactly one
informational log line is emitted, chosen by whether
`SUPABASE_PROJECT_REF` or `SUPABASE_DB_PASSWORD` (specifically — not
every recognized variable) appears in the environment and whether a
config file was supplied; the emitted line never influences the
resolved values, which are exactly those of `resolveSettings`. -/
theorem c7_info_log (env : List (String × String)) (cfg : Option ConfigFile)
    (s : Settings) (h : (with_config env cfg).1 = .ok s) :
    (with_config env cfg).2 = [LogEntry.info (infoMessage (envVarsPresent env) cfg)] ∧
    (resolveSettings env (cfg.map (fun c => c.contents))).1 = .ok s := by
  rcases hr : resolveSettings env (cfg.map (fun c => c.contents)) with ⟨r1, r2⟩
  cases r1 with
  | error es =>
    unfold with_config at h
    rw [hr] at h
    exact Except.noConfusion h
  | ok s2 =>
    have hlogs : r2 = [] := resolveSettings_ok_logs env _ s2 r2 hr
    subst hlogs
    unfold with_config at h ⊢
    rw [hr] at h ⊢
    exact ⟨rfl, h⟩

theorem c7_witness :
    (with_config [] none).1 =
      .ok ⟨"127.0.0.1:54322", "postgres", "us-east-1", none, none,
           "https://api.supabase.com", "test-key", "https://api.thequery.dev/v1"⟩ ∧
    ((with_config [] none).2 =
      [LogEntry.info (infoMessage (envVarsPresent []) none)] ∧
     (resolveSettings [] none).1 =
      .ok ⟨"127.0.0.1:54322", "postgres", "us-east-1", none, none,
           "https://api.supabase.com", "test-key", "https://api.thequery.dev/v1"⟩) :=
  ⟨by rfl, c7_info_log [] none _ (by rfl)⟩

/-- The resolved platform API base URL of a resolution, when it
succeeds. -/
def resolvedApiUrl (env : List (String × String)) (cfg : Option ConfigFile) :
    Option String :=
  match (with_config env cfg).1 with
  | .ok s => some s.supabase_api_url
  | .error _ => none

/-- C8 is refuted as stated: two resolutions over the same (absent)
config file that differ only in the process environment resolve
different platform API base URLs — the field declares no alias, but the
settings loader still reads non-aliased fields from the environment
under the field name, case-insensitively, so `SUPABASE_API_URL` binds
it. -/
theorem c8_counterexample :
    resolvedApiUrl [("SUPABASE_API_URL", "https://evil.example")] none =
      some "https://evil.example" ∧
    resolvedApiUrl [] none = some "https://api.supabase.com" ∧
    ("https://evil.example" : String) ≠ "https://api.supabase.com" :=
  ⟨by rfl, by rfl, by decide⟩

/-- C8 amended: the platform API base URL is resolved like every other
field, with the environment read under the field name
`supabase_api_url` (case-insensitive, so `SUPABASE_API_URL` works):
environment value first, then the config-file value, then the default
`https://api.supabase.com`. -/
theorem c8_api_url_resolution (env : List (String × String))
    (cfg : Option ConfigFile) (s : Settings)
    (h : (with_config env cfg).1 = .ok s) :
    s.supabase_api_url =
      selectRawStr env (cfg.map (fun c => c.contents)) "supabase_api_url"
        "https://api.supabase.com" := by
  obtain ⟨hpr, hpw, hrg, hapi, hex⟩ := with_config_ok_inversion env cfg s h
  exact hapi

theorem c8_witness :
    (with_config [("SUPABASE_API_URL", "https://example.org")] none).1 =
      .ok ⟨"127.0.0.1:54322", "postgres", "us-east-1", none, none,
           "https://example.org", "test-key", "https://api.thequery.dev/v1"⟩ ∧
    ("https://example.org" : String) =
      selectRawStr [("SUPABASE_API_URL", "https://example.org")] none
        "supabase_api_url" "https://api.supabase.com" :=
  ⟨by rfl,
   c8_api_url_resolution [("SUPABASE_API_URL", "https://example.org")] none
     ⟨"127.0.0.1:54322", "postgres", "us-east-1", none, none,
      "https://example.org", "test-key", "https://api.thequery.dev/v1"⟩
     (by rfl)⟩
